import Mathlib

/-!
# Verification of the Sora video-generation orchestrator

Shallow embedding of the generation-orchestration core of the repository
(`src/app.py` and `src/scripts/generate_video.py`): parameter
normalization (`bucket_seconds`, `parse_resolution_to_size`), the
three-strategy fallback chain of `main`, the bounded polling loop
`http_poll`, the media-URL fetch paths of the three strategies, and the
image retry logic of `generate_video_sdk`.

Python semantics that matter here are modelled explicitly: `int(...)`
parsing (whitespace, sign, digits with single underscores), string
truthiness in `x or y` and `if w and h`, and exception propagation
(`Except`) where the source lets exceptions escape. String operations
are modelled structurally over `List Char` so all definitions evaluate
by kernel reduction.
-/

namespace Sora

/-! ## Python string primitives -/

/-- ASCII whitespace, as stripped by Python `int(...)` around a literal. -/
def isPyWs (c : Char) : Bool :=
  c = ' ' || c = '\t' || c = '\n' || c = '\r' || c = '\x0b' || c = '\x0c'

/-- Strip whitespace from both ends. -/
def trimChars (cs : List Char) : List Char :=
  ((cs.dropWhile isPyWs).reverse.dropWhile isPyWs).reverse

/-- ASCII lowercasing of a single character, as Python `.lower()` acts on
the characters relevant here. -/
def lowerChar (c : Char) : Char :=
  if 'A' ≤ c ∧ c ≤ 'Z' then Char.ofNat (c.toNat + 32) else c

/-- Python `s.split(sep)` for a single-character separator: every
occurrence splits, empty pieces are kept. -/
def splitOnChar (sep : Char) : List Char → List (List Char)
  | [] => [[]]
  | c :: rest =>
    let r := splitOnChar sep rest
    if c = sep then [] :: r
    else
      match r with
      | g :: gs => (c :: g) :: gs
      | [] => [[c]]

/-! ## Python `int(...)` parsing, as used by `parse_resolution_to_size` -/

/-- Value of a decimal digit character. -/
def digitVal (c : Char) : Nat := c.toNat - 48

/-- After an initial digit has been consumed (accumulated in `acc`),
consume the rest of a Python integer literal: further digits, with
single underscores allowed only between digits. -/
def parseDigitsAux : Nat → List Char → Option Nat
  | acc, [] => some acc
  | acc, c :: rest =>
    if c.isDigit then parseDigitsAux (acc * 10 + digitVal c) rest
    else if c = '_' then
      match rest with
      | d :: rest2 =>
        if d.isDigit then parseDigitsAux (acc * 10 + digitVal d) rest2 else none
      | [] => none
    else none

/-- A nonempty digit string (with embedded single underscores), as Python
`int` accepts after the optional sign. -/
def parsePyNat : List Char → Option Nat
  | [] => none
  | c :: rest => if c.isDigit then parseDigitsAux (digitVal c) rest else none

/-- Python `int(s)` for a decimal string: surrounding whitespace stripped,
optional single sign, then digits. Returns `none` where Python raises
`ValueError`. -/
def parsePyInt (s : List Char) : Option Int :=
  match trimChars s with
  | '-' :: rest => (parsePyNat rest).map (fun n => -(n : Int))
  | '+' :: rest => (parsePyNat rest).map (fun n => (n : Int))
  | cs => (parsePyNat cs).map (fun n => (n : Int))

/-! ## ParameterNormalizer (`src/app.py` 53-82, `src/scripts/generate_video.py` 33-71) -/

/-- The allowed seconds values (`allowed = [4, 8, 12]`). -/
def allowed_seconds : List Int := [4, 8, 12]

/-- `min(allowed, key=lambda x: abs(x - d))` where `d = duration or 4`:
Python `min` keeps the first-encountered element on ties, so the fold
replaces the current best only on a strictly smaller key. -/
def bucket_target (duration : Int) : Int :=
  let d : Int := if duration = 0 then 4 else duration
  match allowed_seconds with
  | [] => 4
  | x :: xs => xs.foldl (fun best y =>
      if (y - d).natAbs < (best - d).natAbs then y else best) x

/-- `bucket_seconds`: map arbitrary seconds to the closest supported
string among `{"4","8","12"}` (identical in both source files). -/
def bucket_seconds (duration : Int) : String :=
  toString (bucket_target duration)

/-- The `w`/`h` parsing phase of `parse_resolution_to_size`: requires a
literal `"x"` in the raw string, lowercases, splits on `"x"`, and parses
the first two parts with Python `int`; any failure leaves both unset. -/
def parseResolutionWH (resolution : String) : Option (Int × Int) :=
  if resolution.data.contains 'x' then
    match splitOnChar 'x' (resolution.data.map lowerChar) with
    | p0 :: p1 :: _ =>
      match parsePyInt p0, parsePyInt p1 with
      | some w, some h => some (w, h)
      | _, _ => none
    | _ => none
  else none

/-- `parse_resolution_to_size`: map arbitrary `WxH` to the closest allowed
SDK size (identical in both source files). The `if w and h:` guard is
Python truthiness: it passes only when both parsed values are nonzero.
The `for cw, ch in candidates: return ...` loop always returns the first
candidate of the orientation-ordered list. -/
def parse_resolution_to_size (resolution : String) : String :=
  match parseResolutionWH resolution with
  | some (w, h) =>
    if w ≠ 0 ∧ h ≠ 0 then
      if h > w then "720x1280" else "1280x720"
    else "1280x720"
  | none => "1280x720"

/-! ## Common HTTP / provider-interaction types

Strategy functions interact with the provider through `requests` and the
OpenAI SDK. Those interactions are modelled as world parameters: each
callable the source invokes becomes a field of a world structure, and an
operation that can raise a Python exception returns `Except Str`.
A function result of `.error e` means an exception escaped the modelled
function (uncaught); `.ok` carries the returned value. -/

/-- Python strings as character lists (so substring tests and truthiness
are explicit). -/
abbrev Str := List Char

/-- Opaque video byte content. -/
abbrev Bytes := List Nat

/-- Python `a or b` on optional strings: `None` and `""` are falsy. -/
def pyOrStr (a b : Option Str) : Option Str :=
  match a with
  | some s => if s = [] then b else some s
  | none => b

/-- Python `s or default` for the model-id default (`model or "sora-2"`). -/
def pyOrDefault (s : Option String) (dflt : String) : String :=
  match s with
  | some v => if v = "" then dflt else v
  | none => dflt

/-- A `requests` response, with the fields the source reads. -/
structure HttpResp where
  status_code : Nat
  content : Bytes

/-- `Response.raise_for_status()`: raises `HTTPError` on a 4xx/5xx code. -/
def raise_for_status (r : HttpResp) : Except Str Unit :=
  if 400 ≤ r.status_code then .error "HTTPError".data else .ok ()

/-- A video object returned by the SDK (attribute and dict shapes are
collapsed: an absent attribute/key is `none`). -/
structure VideoObj where
  id : Option Str
  url : Option Str
  video_url : Option Str

/-! ## `try_sdk_generate` (`src/scripts/generate_video.py` 74-158) -/

/-- Whether `needle` is an initial segment of `hay`. -/
def isPrefixB : Str → Str → Bool
  | [], _ => true
  | _ :: _, [] => false
  | c :: cs, d :: ds => c = d && isPrefixB cs ds

/-- Python `needle in hay` substring containment. -/
def containsSub (needle : Str) : Str → Bool
  | [] => isPrefixB needle []
  | c :: rest => isPrefixB needle (c :: rest) || containsSub needle rest

/-- The fatal-error test of `try_sdk_generate` line 103:
`"must be verified" in err_str or "403" in err_str` (both substring
tests on the stringified exception). -/
def sdk_is_fatal_err (err : Str) : Bool :=
  containsSub "must be verified".data err || containsSub "403".data err

/-- World of external interactions available to `try_sdk_generate`.
`create_and_poll` and `create` receive the seconds and size strings the
function passes them. -/
structure SdkWorld where
  openai_available : Bool
  has_videos : Bool
  create_and_poll : String → String → Except Str VideoObj
  create : String → String → Except Str VideoObj
  has_poll : Bool
  poll : Str → Except Str VideoObj
  has_download_content : Bool
  download_content : Str → Except Str (Option Bytes)
  http_get : Str → Except Str HttpResp

/-- Result of `try_sdk_generate`, which never lets an exception escape
(its whole body sits in one `try`/`except`): the returned optional bytes
plus which diagnostic was printed. -/
structure SdkOutcome where
  result : Option Bytes
  printed_remediation : Bool
  printed_sdk_failed : Bool
deriving DecidableEq, Repr

/-- The URL-fetch step of the strategy functions:
`r = requests.get(url); r.raise_for_status(); return r.content`.
Exceptions (network or `HTTPError`) propagate. -/
def fetchUrlBytes (get : Str → Except Str HttpResp) (u : Str) : Except Str Bytes :=
  match get u with
  | .error e => .error e
  | .ok r =>
    match raise_for_status r with
    | .error e => .error e
    | .ok _ => .ok r.content

/-- The `for key in ("url", "video_url")` probe (lines 143-153): the
`url` field is checked first, then `video_url`. -/
def videoUrlLookup (v : VideoObj) : Option Str :=
  match v.url with
  | some u => some u
  | none => v.video_url

/-- Extraction phase of `try_sdk_generate` (lines 127-155): the
`download_content` block sits in its own `try`/`except: pass`, so its
failures fall through to the URL probe; URL-fetch exceptions propagate
to the caller (where the outer handler catches them). `.ok none` is the
`return None` at line 155. -/
def sdkExtract (w : SdkWorld) (v : VideoObj) : Except Str (Option Bytes) :=
  let downloaded : Option Bytes :=
    match v.id with
    | some vid =>
      if vid ≠ [] ∧ w.has_download_content then
        match w.download_content vid with
        | .ok (some b) => some b
        | .ok none => none
        | .error _ => none
      else none
    | none => none
  match downloaded with
  | some b => .ok (some b)
  | none =>
    match videoUrlLookup v with
    | some u =>
      match fetchUrlBytes w.http_get u with
      | .ok b => .ok (some b)
      | .error e => .error e
    | none => .ok none

/-- `try_sdk_generate`: the SDK strategy. On a `create_and_poll`
exception classified fatal (line 103) it prints the remediation text and
returns `None`; otherwise it retries via `create` (+ `poll` when an id
and a `poll` helper exist), any exception there becoming the
`RuntimeError` that the outer handler turns into `None` with the
"SDK video generation failed" message. -/
def try_sdk_generate (w : SdkWorld) (duration : Int) (resolution : String) :
    SdkOutcome :=
  if ¬ w.openai_available then ⟨none, false, false⟩
  else
    let finish : Except Str VideoObj → SdkOutcome := fun vr =>
      match vr with
      | .error _ => ⟨none, false, true⟩
      | .ok v =>
        match sdkExtract w v with
        | .ok r => ⟨r, false, false⟩
        | .error _ => ⟨none, false, true⟩
    if ¬ w.has_videos then ⟨none, false, false⟩
    else
      let seconds_str := bucket_seconds duration
      let size_str := parse_resolution_to_size resolution
      match w.create_and_poll seconds_str size_str with
      | .ok video_obj => finish (.ok video_obj)
      | .error e =>
        if sdk_is_fatal_err e then ⟨none, true, false⟩
        else
          let inner : Except Str VideoObj :=
            match w.create seconds_str size_str with
            | .error e2 => .error e2
            | .ok created =>
              match created.id with
              | some vid =>
                if vid ≠ [] ∧ w.has_poll then w.poll vid else .ok created
              | none => .ok created
          finish inner

/-! ## `responses_http_generate` (`src/scripts/generate_video.py` 266-339) -/

/-- The `video_spec` dict built at lines 277-294: raw parsed width/height
(set only when both are truthy), the raw duration (set only when truthy
and positive), and a fixed format. No normalization is applied here. -/
structure VideoSpec where
  width : Option Int
  height : Option Int
  duration : Option Int
  format : String
deriving DecidableEq, Repr

/-- Build the `video_spec` for the Responses API call: lines 277-294
re-parse the resolution exactly as `parse_resolution_to_size` does, then
put the raw values in the spec. -/
def responses_video_spec (duration : Int) (resolution : String) : VideoSpec :=
  let wh := parseResolutionWH resolution
  { width := match wh with
      | some (w, h) => if w ≠ 0 ∧ h ≠ 0 then some w else none
      | none => none
    height := match wh with
      | some (w, h) => if w ≠ 0 ∧ h ≠ 0 then some h else none
      | none => none
    duration := if duration ≠ 0 ∧ 0 < duration then some duration else none
    format := "mp4" }

/-- The JSON body POSTed to `/v1/responses` (line 296-307). -/
structure ResponsesBody where
  model : String
  prompt : String
  video : VideoSpec
deriving DecidableEq, Repr

/-- One entry of `output[0]["content"]`, with the fields the extraction
loop reads (`part["type"]`, `part["video"]["url"]`, `video["b64"]`,
`video["data"]`); absent keys are `none`. -/
structure RespPart where
  type : Str
  video_url : Option Str
  b64 : Option Str
  data_field : Option Str

/-- The parsed Responses API reply: its status code, whether
`data.get("output") or []` is nonempty, and `output[0]["content"] or []`. -/
structure ResponsesData where
  status_code : Nat
  output_nonempty : Bool
  parts : List RespPart

/-- World of external interactions of `responses_http_generate`: the POST
(receiving the body the function builds), the media GET, and base64
decoding (which raises on invalid input). -/
structure RespWorld where
  post : ResponsesBody → ResponsesData
  http_get : Str → Except Str HttpResp
  decode_b64 : Str → Except Str Bytes

/-- The extraction loop at lines 321-334: first `output_video` part with
a string `url` is fetched (exceptions propagate out of the loop); absent
url falls to the base64 fields; a part yielding neither moves on. -/
def respExtractParts (w : RespWorld) : List RespPart → Except Str (Option Bytes)
  | [] => .ok none
  | p :: rest =>
    if p.type = "output_video".data then
      match p.video_url with
      | some u =>
        match fetchUrlBytes w.http_get u with
        | .ok b => .ok (some b)
        | .error e => .error e
      | none =>
        match pyOrStr p.b64 p.data_field with
        | some s =>
          match w.decode_b64 s with
          | .ok b => .ok (some b)
          | .error e => .error e
        | none => respExtractParts w rest
    else respExtractParts w rest

/-- `responses_http_generate`: the conversational strategy. The whole
extraction sits in `try: ... except Exception: pass`, so any exception
there (including a non-2xx media fetch) ends as the "Unknown Responses
API format" `return None`; the function itself never raises. -/
def responses_http_generate (w : RespWorld) (prompt : String) (duration : Int)
    (resolution : String) (model : Option String) : Option Bytes :=
  let body : ResponsesBody :=
    { model := pyOrDefault model "sora-2"
      prompt := prompt
      video := responses_video_spec duration resolution }
  let r := w.post body
  if 400 ≤ r.status_code then none
  else if r.output_nonempty then
    match respExtractParts w r.parts with
    | .ok (some b) => some b
    | .ok none => none
    | .error _ => none
  else none

/-! ## `http_poll` (`src/scripts/generate_video.py` 161-183)

Wall-clock time is modelled in integral units: the loop guard at
iteration `k` is `k * poll_interval < timeout_seconds` (the deadline is
checked before each fetch, and each iteration ends with
`time.sleep(poll_interval)`). The recursion carries fuel
`timeout_seconds + 1`, which lemma `http_poll_aux_fuel_free` shows is
never the reason the loop stops once `1 ≤ poll_interval`. -/

/-- A status response, with the fields `http_poll` reads. -/
structure PollResp where
  status_code : Nat
  status : Option Str
  state : Option Str
  video_url : Option Str
  url : Option Str

/-- `state = data.get("status") or data.get("state")` (line 175). -/
def poll_state (r : PollResp) : Option Str := pyOrStr r.status r.state

/-- `state in {"succeeded", "completed", "done"}` (line 176). -/
def isSuccessState (s : Option Str) : Bool :=
  s = some "succeeded".data || s = some "completed".data || s = some "done".data

/-- `state in {"failed", "error"}` (line 178). -/
def isFailState (s : Option Str) : Bool :=
  s = some "failed".data || s = some "error".data

/-- A status response on which the loop keeps polling: no HTTP error and
no terminal state. -/
def pollPending (r : PollResp) : Prop :=
  r.status_code < 400 ∧ isSuccessState (poll_state r) = false ∧
    isFailState (poll_state r) = false

instance (r : PollResp) : Decidable (pollPending r) := by
  unfold pollPending; infer_instance

/-- How `http_poll` exits, distinguishing the four `return` sites by the
diagnostic each prints. -/
inductive PollExit where
  | pollingError (code : Nat)
  | gotUrl (u : Option Str)
  | jobFailed
  | timedOut
deriving DecidableEq, Repr

/-- The `Optional[str]` value `http_poll` actually returns for each exit. -/
def pollReturn : PollExit → Option Str
  | .gotUrl u => u
  | _ => none

/-- The exit taken when iteration `k` sees a non-pending response. -/
def pollStepExit (r : PollResp) : PollExit :=
  if 400 ≤ r.status_code then .pollingError r.status_code
  else if isSuccessState (poll_state r) then .gotUrl (pyOrStr r.video_url r.url)
  else if isFailState (poll_state r) then .jobFailed
  else .timedOut

/-- The `while time.time() < deadline` loop, fueled; `fetch k` is the
`requests.get(status_url, ...)` of the k-th iteration. -/
def http_poll_aux (fetch : Nat → PollResp) (timeout interval : Nat) :
    Nat → Nat → PollExit
  | 0, _ => .timedOut
  | fuel + 1, k =>
    if k * interval < timeout then
      let r := fetch k
      if 400 ≤ r.status_code then .pollingError r.status_code
      else if isSuccessState (poll_state r) then .gotUrl (pyOrStr r.video_url r.url)
      else if isFailState (poll_state r) then .jobFailed
      else http_poll_aux fetch timeout interval fuel (k + 1)
    else .timedOut

/-- `http_poll` with its keyword defaults `timeout_seconds=600`,
`poll_interval=2.0`. -/
def http_poll (fetch : Nat → PollResp) (timeout interval : Nat) : PollExit :=
  http_poll_aux fetch timeout interval (timeout + 1) 0

/-- Number of status fetches the loop performs (one per iteration whose
deadline guard passes). -/
def http_poll_count_aux (fetch : Nat → PollResp) (timeout interval : Nat) :
    Nat → Nat → Nat
  | 0, _ => 0
  | fuel + 1, k =>
    if k * interval < timeout then
      let r := fetch k
      if 400 ≤ r.status_code then 1
      else if isSuccessState (poll_state r) then 1
      else if isFailState (poll_state r) then 1
      else 1 + http_poll_count_aux fetch timeout interval fuel (k + 1)
    else 0

/-- Fetch count of a full `http_poll` run. -/
def http_poll_fetch_count (fetch : Nat → PollResp) (timeout interval : Nat) : Nat :=
  http_poll_count_aux fetch timeout interval (timeout + 1) 0

/-! ## `http_fallback_generate` (`src/scripts/generate_video.py` 186-263) -/

/-- The multipart form fields built at lines 198-212: `size` is added
when the (always nonempty) mapped size is truthy, `seconds` only when
the duration is truthy. -/
structure MultipartPayload where
  model : String
  prompt : String
  size : Option String
  seconds : Option String
deriving DecidableEq, Repr

/-- Build the multipart payload of the legacy strategy. -/
def multipart_payload (prompt : String) (duration : Int) (resolution : String)
    (model : Option String) : MultipartPayload :=
  let size_str := parse_resolution_to_size resolution
  { model := pyOrDefault model "sora-2"
    prompt := prompt
    size := if size_str ≠ "" then some size_str else none
    seconds := if duration ≠ 0 then some (bucket_seconds duration) else none }

/-- The parsed JSON of the create response, with the keys the function
reads. `nonempty` is Python truthiness of the dict (`if not data`);
`error_is_dict` is `isinstance(data.get("error", \x7b\x7d), dict)` and
`error_message` the `err.get("message", "")` value. -/
structure FallbackData where
  nonempty : Bool
  error_is_dict : Bool
  error_message : Str
  video_url : Option Str
  status_url : Option Str
  poll_url : Option Str
  url : Option Str

/-- World of external interactions of `http_fallback_generate`: the
multipart POST (status code plus parsed JSON, `none` when the body is
not JSON), the media GET, and the status fetches handed to `http_poll`. -/
structure FbWorld where
  post : MultipartPayload → Nat × Option FallbackData
  http_get : Str → Except Str HttpResp
  status_fetch : Nat → PollResp

/-- Result of `http_fallback_generate`: `.error` when an exception
escapes the function (its media-URL `raise_for_status()` calls are not
inside any `try`), `.ok` the returned optional bytes; plus whether the
verification remediation text was printed. -/
structure FallbackOutcome where
  result : Except Str (Option Bytes)
  printed_remediation : Bool

/-- `http_fallback_generate`: the legacy multipart strategy. On a 4xx/5xx
create response it classifies the error (`"must be verified" in msg or
r.status_code == 403`) and returns `None`; otherwise it follows, in
order, a direct `video_url`, a `status_url`/`poll_url` routed through
`http_poll` (with its defaults 600/2), and a plain `url`. -/
def http_fallback_generate (w : FbWorld) (prompt : String) (duration : Int)
    (resolution : String) (model : Option String) : FallbackOutcome :=
  let payload := multipart_payload prompt duration resolution model
  let pr := w.post payload
  let code := pr.1
  let data? := pr.2
  if 400 ≤ code then
    let remediation : Bool :=
      match data? with
      | some d =>
        d.nonempty && d.error_is_dict &&
          (containsSub "must be verified".data d.error_message || code == 403)
      | none => false
    ⟨.ok none, remediation⟩
  else
    match data? with
    | none => ⟨.ok none, false⟩
    | some d =>
      if ¬ d.nonempty then ⟨.ok none, false⟩
      else
        match d.video_url with
        | some u => ⟨(fetchUrlBytes w.http_get u).map some, false⟩
        | none =>
          let afterUrlField : FallbackOutcome :=
            match d.url with
            | some u2 => ⟨(fetchUrlBytes w.http_get u2).map some, false⟩
            | none => ⟨.ok none, false⟩
          match pyOrStr d.status_url d.poll_url with
          | some su =>
            if su ≠ [] then
              match pollReturn (http_poll w.status_fetch 600 2) with
              | some u =>
                if u = [] then ⟨.ok none, false⟩
                else ⟨(fetchUrlBytes w.http_get u).map some, false⟩
              | none => ⟨.ok none, false⟩
            else afterUrlField
          | none => afterUrlField

/-! ## `main` (`src/scripts/generate_video.py` 356-392) -/

/-- The three strategy worlds `main` runs against. -/
structure MainWorld where
  sdk : SdkWorld
  resp : RespWorld
  fb : FbWorld

/-- How the program ends: video saved, `sys.exit(3)` after
"Video generation failed", or an uncaught exception. -/
inductive MainResult where
  | saved (b : Bytes)
  | failedExit
  | crashed (e : Str)
deriving DecidableEq, Repr

/-- Outcome of `main` plus which fallback strategies were invoked (the
SDK strategy is invoked unconditionally). -/
structure MainTrace where
  result : MainResult
  responses_attempted : Bool
  fallback_attempted : Bool
deriving DecidableEq, Repr

/-- `main`: run the SDK strategy; on `None` run the Responses strategy;
on `None` again run the legacy strategy; a falsy final value (including
empty bytes) exits with code 3. Each later strategy runs exactly under
`if video_bytes is None`. -/
def main_run (w : MainWorld) (prompt : String) (duration : Int)
    (resolution : String) (model : Option String) : MainTrace :=
  match (try_sdk_generate w.sdk duration resolution).result with
  | some b => ⟨if b = [] then .failedExit else .saved b, false, false⟩
  | none =>
    match responses_http_generate w.resp prompt duration resolution model with
    | some b => ⟨if b = [] then .failedExit else .saved b, true, false⟩
    | none =>
      match (http_fallback_generate w.fb prompt duration resolution model).result with
      | .error e => ⟨.crashed e, true, true⟩
      | .ok (some b) => ⟨if b = [] then .failedExit else .saved b, true, true⟩
      | .ok none => ⟨.failedExit, true, true⟩

/-! ## `generate_video_sdk` (`src/app.py` 85-163) -/

/-- World of external interactions of `generate_video_sdk`. The
`create_and_poll` call takes whether `input_reference` is attached,
plus the seconds and size strings; a failed `open()` of the image is
subsumed by a failing with-image call. -/
structure AppSdkWorld where
  openai_available : Bool
  has_videos : Bool
  image_exists : Bool
  create_and_poll : Bool → String → String → Except Str VideoObj
  has_download_content : Bool
  download_content : Str → Except Str (Option Bytes)
  http_get : Str → Except Str HttpResp

/-- The URL probe shared by the extraction phases. -/
def urlProbeBytes (get : Str → Except Str HttpResp) (v : VideoObj) :
    Except Str (Option Bytes) :=
  match videoUrlLookup v with
  | some u => (fetchUrlBytes get u).map some
  | none => .ok none

/-- Extraction phase of `generate_video_sdk` (lines 134-158): unlike the
script's version, the `download_content` block has no local handler, so
its exceptions reach the function's outer handler. -/
def appExtract (w : AppSdkWorld) (v : VideoObj) : Except Str (Option Bytes) :=
  match v.id with
  | some vid =>
    if vid ≠ [] ∧ w.has_download_content then
      match w.download_content vid with
      | .error e => .error e
      | .ok (some b) => .ok (some b)
      | .ok none => urlProbeBytes w.http_get v
    else urlProbeBytes w.http_get v
  | none => urlProbeBytes w.http_get v

/-- Result of `generate_video_sdk` (never raises: one outer handler) and
the sequence of `create_and_poll` invocations, `true` meaning the image
was attached. -/
structure AppSdkOutcome where
  result : Option Bytes
  calls : List Bool
deriving DecidableEq, Repr

/-- `generate_video_sdk`: the web app's SDK strategy. With an existing
input image it first calls `create_and_poll` with `input_reference`; if
that raises, it pops the image and calls again without it (lines
116-127); that second call's failure goes to the outer handler. -/
def generate_video_sdk (w : AppSdkWorld) (duration : Int) (resolution : String)
    (input_image_path : Option String) : AppSdkOutcome :=
  if ¬ w.openai_available then ⟨none, []⟩
  else if ¬ w.has_videos then ⟨none, []⟩
  else
    let seconds_str := bucket_seconds duration
    let size_str := parse_resolution_to_size resolution
    let withImage : Bool :=
      (match input_image_path with
       | some p => p ≠ ""
       | none => false) && w.image_exists
    let created : Except Str VideoObj × List Bool :=
      if withImage then
        match w.create_and_poll true seconds_str size_str with
        | .ok v => (.ok v, [true])
        | .error _ => (w.create_and_poll false seconds_str size_str, [true, false])
      else (w.create_and_poll false seconds_str size_str, [false])
    match created with
    | (.error _, calls) => ⟨none, calls⟩
    | (.ok v, calls) =>
      match appExtract w v with
      | .ok r => ⟨r, calls⟩
      | .error _ => ⟨none, calls⟩

/-! ## Concrete worlds used by witnesses and counterexamples -/

/-- An SDK world where the SDK strategy is unavailable (retryable
`None`). -/
def sdkUnavailableWorld : SdkWorld :=
  ⟨false, false, fun _ _ => .error [], fun _ _ => .error [], false,
   fun _ => .error [], false, fun _ => .ok none, fun _ => .ok ⟨200, []⟩⟩

/-- A responses world whose POST yields an empty output (retryable
`None`). -/
def respEmptyWorld : RespWorld :=
  ⟨fun _ => ⟨200, false, []⟩, fun _ => .ok ⟨200, []⟩, fun _ => .ok []⟩

/-- A legacy-strategy world whose create response carries a direct
`video_url` whose fetch succeeds with bytes `[7]`. -/
def fbVideoUrlOkWorld : FbWorld :=
  ⟨fun _ => (200, some ⟨true, true, [], some "u".data, none, none, none⟩),
   fun _ => .ok ⟨200, [7]⟩, fun _ => ⟨200, none, none, none, none⟩⟩

/-- An SDK world whose `create_and_poll` raises the organization
verification error. -/
def sdkVerifyErrorWorld : SdkWorld :=
  ⟨true, true, fun _ _ => .error "Your organization must be verified".data,
   fun _ _ => .error [], false, fun _ => .error [], false,
   fun _ => .ok none, fun _ => .ok ⟨200, []⟩⟩

/-- A legacy-strategy world whose create response has a direct
`video_url` but whose media fetch answers 404. -/
def fbVideoUrl404World : FbWorld :=
  ⟨fun _ => (200, some ⟨true, true, [], some "u".data, none, none, none⟩),
   fun _ => .ok ⟨404, []⟩, fun _ => ⟨200, none, none, none, none⟩⟩

/-- An SDK world whose video object has a direct URL whose fetch
answers 404. -/
def sdkUrl404World : SdkWorld :=
  ⟨true, true, fun _ _ => .ok ⟨none, some "u".data, none⟩, fun _ _ => .error [],
   false, fun _ => .error [], false, fun _ => .ok none, fun _ => .ok ⟨404, []⟩⟩

/-- A responses world whose output part has a media URL whose fetch
answers 404. -/
def respUrl404World : RespWorld :=
  ⟨fun _ => ⟨200, true, [⟨"output_video".data, some "u".data, none, none⟩]⟩,
   fun _ => .ok ⟨404, []⟩, fun _ => .ok []⟩

/-- An app-strategy world that rejects the call iff the image is
attached, and otherwise produces a video object whose URL fetch yields
bytes `[9]`. -/
def imgRetryWorld : AppSdkWorld :=
  ⟨true, true, true,
   fun withImg _ _ =>
     if withImg then .error "image rejected".data
     else .ok ⟨none, some "u".data, none⟩,
   false, fun _ => .ok none, fun _ => .ok ⟨200, [9]⟩⟩

/-! ## Theorems -/

/-- Closed form of the duration bucketing fold. -/
lemma bucket_target_eq (d : Int) :
    bucket_target d =
      if d = 0 then 4 else if d ≤ 6 then 4 else if d ≤ 10 then 8 else 12 := by
  simp only [bucket_target, allowed_seconds, List.foldl]
  split_ifs <;> omega

/-- C5: for every non-negative duration, `bucket_seconds` yields one of
the strings "4"/"8"/"12", whose numeric value has minimum absolute
difference from the request among the allowed values 4/8/12; the tie at
6 resolves to the lower value 4, and 0 maps to 4. -/
theorem bucket_seconds_spec (d : Int) (h : 0 ≤ d) :
    bucket_seconds d ∈ ["4", "8", "12"] ∧
    bucket_target d ∈ allowed_seconds ∧
    (∀ a ∈ allowed_seconds, (bucket_target d - d).natAbs ≤ (a - d).natAbs) ∧
    bucket_target 6 = 4 ∧ bucket_target 0 = 4 := by
  have hc := bucket_target_eq d
  refine ⟨?_, ?_, ?_, by decide, by decide⟩
  · unfold bucket_seconds
    rw [hc]
    split_ifs <;> decide
  · rw [hc]; unfold allowed_seconds; split_ifs <;> simp
  · intro a ha
    unfold allowed_seconds at ha
    rw [hc]
    simp only [List.mem_cons, List.not_mem_nil, or_false] at ha
    rcases ha with rfl | rfl | rfl <;> split_ifs <;> omega

/-- C5 witness: the theorem applied at duration 5 (closest value 4). -/
theorem bucket_seconds_spec_witness :
    (0 : Int) ≤ 5 ∧
    (bucket_seconds 5 ∈ ["4", "8", "12"] ∧
     bucket_target 5 ∈ allowed_seconds ∧
     (∀ a ∈ allowed_seconds, (bucket_target 5 - 5).natAbs ≤ (a - 5).natAbs) ∧
     bucket_target 6 = 4 ∧ bucket_target 0 = 4) :=
  ⟨by decide, bucket_seconds_spec 5 (by decide)⟩

/-- C4 counterexample: "0x500" parses as width 0, height 500 with
height > width, yet the result is the landscape default, not the
portrait size the claim requires. -/
theorem parse_resolution_portrait_cex :
    parseResolutionWH "0x500" = some (0, 500) ∧ (500 : Int) > 0 ∧
    parse_resolution_to_size "0x500" = "1280x720" ∧
    parse_resolution_to_size "0x500" ≠ "720x1280" := by decide

/-- C4 (amended): malformed input yields exactly "1280x720"; an input
parsed as WxH with both components nonzero and height > width yields
"720x1280"; any parsed input with width ≥ height yields "1280x720". -/
theorem parse_resolution_to_size_spec (s : String) :
    (parseResolutionWH s = none → parse_resolution_to_size s = "1280x720") ∧
    (∀ w h : Int, parseResolutionWH s = some (w, h) → w ≠ 0 → h ≠ 0 → h > w →
        parse_resolution_to_size s = "720x1280") ∧
    (∀ w h : Int, parseResolutionWH s = some (w, h) → w ≥ h →
        parse_resolution_to_size s = "1280x720") := by
  refine ⟨?_, ?_, ?_⟩
  · intro hnone
    simp [parse_resolution_to_size, hnone]
  · intro w h hp hw hh hlt
    simp only [parse_resolution_to_size, hp]
    rw [if_pos ⟨hw, hh⟩, if_pos hlt]
  · intro w h hp hge
    simp only [parse_resolution_to_size, hp]
    split_ifs with h1 h2
    · exact absurd h2 (by omega)
    · rfl
    · rfl

/-- C4 witness: the amended portrait clause applied to "1080x1920". -/
theorem parse_resolution_to_size_spec_witness :
    parseResolutionWH "1080x1920" = some (1080, 1920) ∧
    parse_resolution_to_size "1080x1920" = "720x1280" :=
  ⟨by decide,
   (parse_resolution_to_size_spec "1080x1920").2.1 1080 1920 (by decide)
     (by decide) (by decide) (by decide)⟩

/-- C6 counterexample: "1792x1024" is one of the provider's allowed
sizes, yet normalizing it does not return it unchanged. -/
theorem normalize_idempotent_cex :
    parse_resolution_to_size "1792x1024" = "1280x720" ∧
    parse_resolution_to_size "1792x1024" ≠ "1792x1024" := by decide

/-- C6 (amended): normalization is idempotent on the allowed durations
4/8/12 and on the two 720p sizes; the two larger allowed sizes are
remapped to the 720p size of the same orientation. -/
theorem normalize_idempotent_on_reachable :
    bucket_target 4 = 4 ∧ bucket_target 8 = 8 ∧ bucket_target 12 = 12 ∧
    bucket_seconds 4 = "4" ∧ bucket_seconds 8 = "8" ∧ bucket_seconds 12 = "12" ∧
    parse_resolution_to_size "1280x720" = "1280x720" ∧
    parse_resolution_to_size "720x1280" = "720x1280" ∧
    parse_resolution_to_size "1792x1024" = "1280x720" ∧
    parse_resolution_to_size "1024x1792" = "720x1280" := by decide

/-- C10: a parsed resolution with zero width (or zero height) fails the
`if w and h:` truthiness guard, so the result is the "1280x720" default
and the portrait branch is never taken. -/
theorem parse_resolution_zero_guard (s : String) (w h : Int)
    (hp : parseResolutionWH s = some (w, h)) (hz : w = 0 ∨ h = 0) :
    parse_resolution_to_size s = "1280x720" := by
  simp only [parse_resolution_to_size, hp]
  split_ifs with h1 h2
  · rcases hz with rfl | rfl
    · exact absurd rfl h1.1
    · exact absurd rfl h1.2
  · rfl
  · rfl

/-- C10 witness: the theorem applied to "0x500". -/
theorem parse_resolution_zero_guard_witness :
    parseResolutionWH "0x500" = some ((0 : Int), (500 : Int)) ∧
    parse_resolution_to_size "0x500" = "1280x720" :=
  ⟨by decide, parse_resolution_zero_guard "0x500" 0 500 (by decide) (Or.inl rfl)⟩

/-- One loop body on a non-pending response takes the matching exit,
whatever the continuation would have been. -/
lemma poll_step_of_not_pending (r : PollResp) (cont : PollExit)
    (hnp : ¬ pollPending r) :
    (if 400 ≤ r.status_code then PollExit.pollingError r.status_code
     else if isSuccessState (poll_state r) then
       PollExit.gotUrl (pyOrStr r.video_url r.url)
     else if isFailState (poll_state r) then PollExit.jobFailed
     else cont) = pollStepExit r := by
  unfold pollStepExit
  split_ifs with c1 c2 c3 <;> try rfl
  exact absurd ⟨by omega, by simpa using c2, by simpa using c3⟩ hnp

/-- While every fetched status up to the deadline is pending, the loop
runs to the deadline and exits `timedOut` (given enough fuel). -/
lemma http_poll_aux_pending (fetch : Nat → PollResp) (timeout interval : Nat)
    (fuel : Nat) :
    ∀ k, timeout ≤ k * interval + fuel * interval →
    (∀ j, k ≤ j → j * interval < timeout → pollPending (fetch j)) →
    http_poll_aux fetch timeout interval fuel k = .timedOut := by
  induction fuel with
  | zero => intro k hfuel hp; rfl
  | succ n ih =>
    intro k hfuel hp
    simp only [http_poll_aux]
    by_cases hg : k * interval < timeout
    · obtain ⟨h1, h2, h3⟩ := hp k (le_refl k) hg
      rw [if_pos hg, if_neg (by omega), if_neg (by simp [h2]),
        if_neg (by simp [h3])]
      refine ih (k + 1) ?_ (fun j hj => hp j (by omega))
      have hr : (k + 1) * interval + n * interval
          = k * interval + (n + 1) * interval := by ring
      rw [hr]; exact hfuel
    · rw [if_neg hg]

/-- If statuses are pending strictly before iteration `K`, and `K` is
within the deadline with a non-pending response, the loop exits there
with the step's exit (given enough fuel). -/
lemma http_poll_aux_first_exit (fetch : Nat → PollResp) (timeout interval : Nat)
    (fuel : Nat) :
    ∀ k K, k ≤ K → K < k + fuel → K * interval < timeout →
    (∀ j, k ≤ j → j < K → pollPending (fetch j)) →
    ¬ pollPending (fetch K) →
    http_poll_aux fetch timeout interval fuel k = pollStepExit (fetch K) := by
  induction fuel with
  | zero => intro k K hkK hfuel; omega
  | succ n ih =>
    intro k K hkK hfuel hK hp hnp
    have hg : k * interval < timeout :=
      lt_of_le_of_lt (Nat.mul_le_mul_right interval hkK) hK
    simp only [http_poll_aux]
    rw [if_pos hg]
    by_cases hk : k = K
    · subst hk
      exact poll_step_of_not_pending (fetch k) _ hnp
    · obtain ⟨h1, h2, h3⟩ := hp k (le_refl k) (by omega)
      rw [if_neg (by omega), if_neg (by simp [h2]), if_neg (by simp [h3])]
      exact ih (k + 1) K (by omega) (by omega) hK (fun j hj => hp j (by omega)) hnp

/-- Each performed fetch lies strictly before the deadline, so the fetch
count is bounded by the deadline divided by the interval. -/
lemma http_poll_count_aux_bound (fetch : Nat → PollResp) (timeout interval : Nat)
    (fuel : Nat) :
    ∀ k, http_poll_count_aux fetch timeout interval fuel k = 0 ∨
      (http_poll_count_aux fetch timeout interval fuel k + k) * interval
        < timeout + interval := by
  induction fuel with
  | zero => intro k; exact Or.inl rfl
  | succ n ih =>
    intro k
    simp only [http_poll_count_aux]
    by_cases hg : k * interval < timeout
    · rw [if_pos hg]
      have hone : (1 + k) * interval < timeout + interval := by
        calc (1 + k) * interval = k * interval + interval := by ring
        _ < timeout + interval := by omega
      split_ifs with c1 c2 c3
      · exact Or.inr hone
      · exact Or.inr hone
      · exact Or.inr hone
      · rcases ih (k + 1) with h0 | hlt
        · rw [h0]; exact Or.inr hone
        · refine Or.inr ?_
          have hr : (1 + http_poll_count_aux fetch timeout interval n (k + 1) + k)
              * interval
              = (http_poll_count_aux fetch timeout interval n (k + 1) + (k + 1))
                * interval := by ring
          rw [hr]; exact hlt
    · rw [if_neg hg]; exact Or.inl rfl

/-- A terminal failed/error state is not also a success state. -/
lemma fail_state_not_success (s : Option Str) (h : isFailState s = true) :
    isSuccessState s = false := by
  unfold isFailState at h
  simp only [Bool.or_eq_true, decide_eq_true_eq] at h
  rcases h with rfl | rfl <;> decide

/-- C7: the polling loop is bounded. The number of status fetches is at
most the deadline divided by the interval (so the loop terminates);
all-pending statuses up to the deadline yield the `timedOut` exit (and
the Python return value `None`); the first non-pending iteration within
the deadline returns the media URL on a succeeded/completed/done state
and the failure exit on failed/error. -/
theorem http_poll_bounded_spec (fetch : Nat → PollResp) (timeout interval : Nat)
    (hint : 1 ≤ interval) :
    http_poll_fetch_count fetch timeout interval * interval < timeout + interval ∧
    ((∀ k, k * interval < timeout → pollPending (fetch k)) →
        http_poll fetch timeout interval = .timedOut ∧
        pollReturn (http_poll fetch timeout interval) = none) ∧
    (∀ K, (∀ j, j < K → pollPending (fetch j)) → K * interval < timeout →
      ((fetch K).status_code < 400 →
          isSuccessState (poll_state (fetch K)) = true →
          http_poll fetch timeout interval =
            .gotUrl (pyOrStr (fetch K).video_url (fetch K).url)) ∧
      ((fetch K).status_code < 400 → isFailState (poll_state (fetch K)) = true →
          http_poll fetch timeout interval = .jobFailed)) := by
  refine ⟨?_, ?_, ?_⟩
  · rcases http_poll_count_aux_bound fetch timeout interval (timeout + 1) 0 with h0 | h
    · unfold http_poll_fetch_count
      rw [h0]; omega
    · unfold http_poll_fetch_count
      rw [Nat.add_zero] at h
      omega
  · intro hp
    have ht : http_poll fetch timeout interval = .timedOut := by
      refine http_poll_aux_pending fetch timeout interval (timeout + 1) 0 ?_
        (fun j hj => hp j)
      have : timeout + 1 ≤ (timeout + 1) * interval :=
        Nat.le_mul_of_pos_right (timeout + 1) (by omega)
      omega
    exact ⟨ht, by rw [ht]; rfl⟩
  · intro K hp hK
    have hKfuel : K < 0 + (timeout + 1) := by
      have : K ≤ K * interval := Nat.le_mul_of_pos_right K (by omega)
      omega
    constructor
    · intro hc hs
      have hnp : ¬ pollPending (fetch K) := by
        intro hpend; rw [hpend.2.1] at hs; exact Bool.false_ne_true hs
      have hrun := http_poll_aux_first_exit fetch timeout interval (timeout + 1)
        0 K (Nat.zero_le K) hKfuel hK (fun j hj => hp j) hnp
      unfold http_poll
      rw [hrun]
      unfold pollStepExit
      rw [if_neg (by omega), if_pos hs]
    · intro hc hf
      have hfs : isSuccessState (poll_state (fetch K)) = false :=
        fail_state_not_success _ hf
      have hnp : ¬ pollPending (fetch K) := by
        intro hpend; rw [hpend.2.2] at hf; exact Bool.false_ne_true hf
      have hrun := http_poll_aux_first_exit fetch timeout interval (timeout + 1)
        0 K (Nat.zero_le K) hKfuel hK (fun j hj => hp j) hnp
      unfold http_poll
      rw [hrun]
      unfold pollStepExit
      rw [if_neg (by omega), if_neg (by simp [hfs]), if_pos hf]

/-- C7 witness: a constant-pending status source at the default
timeout/interval pair 600/2 times out. -/
theorem http_poll_bounded_spec_witness :
    (1 ≤ 2) ∧
    http_poll (fun _ => ⟨200, none, none, none, none⟩) 600 2 = .timedOut :=
  ⟨by decide,
   ((http_poll_bounded_spec (fun _ => ⟨200, none, none, none, none⟩) 600 2
       (by decide)).2.1
     (fun k hk => ⟨by decide, by decide, by decide⟩)).1⟩

/-- C3: the orchestrator attempts SDK, then responses, then legacy
multipart, in that order: the responses strategy runs exactly when the
SDK strategy returned `None`, the legacy one exactly when both did; a
strategy yielding non-empty bytes ends the run with those bytes saved
and no later strategy invoked. -/
theorem main_strategy_chain_spec (w : MainWorld) (prompt : String) (d : Int)
    (res : String) (model : Option String) :
    ((main_run w prompt d res model).responses_attempted = true
        ↔ (try_sdk_generate w.sdk d res).result = none) ∧
    ((main_run w prompt d res model).fallback_attempted = true
        ↔ ((try_sdk_generate w.sdk d res).result = none ∧
           responses_http_generate w.resp prompt d res model = none)) ∧
    (∀ b, (try_sdk_generate w.sdk d res).result = some b → b ≠ [] →
        (main_run w prompt d res model).result = .saved b ∧
        (main_run w prompt d res model).responses_attempted = false ∧
        (main_run w prompt d res model).fallback_attempted = false) ∧
    (∀ b, (try_sdk_generate w.sdk d res).result = none →
        responses_http_generate w.resp prompt d res model = some b → b ≠ [] →
        (main_run w prompt d res model).result = .saved b ∧
        (main_run w prompt d res model).fallback_attempted = false) ∧
    (∀ b, (try_sdk_generate w.sdk d res).result = none →
        responses_http_generate w.resp prompt d res model = none →
        (http_fallback_generate w.fb prompt d res model).result = .ok (some b) →
        b ≠ [] →
        (main_run w prompt d res model).result = .saved b) := by
  rcases h1 : (try_sdk_generate w.sdk d res).result with _ | b1
  · rcases h2 : responses_http_generate w.resp prompt d res model with _ | b2
    · rcases h3 : (http_fallback_generate w.fb prompt d res model).result
        with e | ob
      · simp [main_run, h1, h2, h3]
      · rcases ob with _ | b3
        · simp [main_run, h1, h2, h3]
        · simp only [main_run, h1, h2, h3]
          refine ⟨by simp, by simp, by simp, by simp, ?_⟩
          intro b _ _ hb hbne
          obtain rfl : b3 = b := by simpa using hb
          simp [hbne]
    · simp only [main_run, h1, h2]
      refine ⟨by simp, by simp, by simp, ?_, by simp⟩
      intro b _ hb hbne
      obtain rfl : b2 = b := by simpa using hb
      simp [hbne]
  · simp only [main_run, h1]
    refine ⟨by simp, by simp, ?_, by simp, by simp⟩
    intro b hb hbne
    obtain rfl : b1 = b := by simpa using hb
    simp [hbne]


/-- C3 witness: two retryable failures then a succeeding legacy
strategy; all three run in order and the success is saved. -/
theorem main_strategy_chain_spec_witness :
    (try_sdk_generate sdkUnavailableWorld 8 "1280x720").result = none ∧
    responses_http_generate respEmptyWorld "p" 8 "1280x720" none = none ∧
    (http_fallback_generate fbVideoUrlOkWorld "p" 8 "1280x720" none).result
        = .ok (some [7]) ∧
    (main_run ⟨sdkUnavailableWorld, respEmptyWorld, fbVideoUrlOkWorld⟩
        "p" 8 "1280x720" none).result = .saved [7] ∧
    (main_run ⟨sdkUnavailableWorld, respEmptyWorld, fbVideoUrlOkWorld⟩
        "p" 8 "1280x720" none).fallback_attempted = true :=
  ⟨rfl, rfl, rfl,
   (main_strategy_chain_spec ⟨sdkUnavailableWorld, respEmptyWorld,
       fbVideoUrlOkWorld⟩ "p" 8 "1280x720" none).2.2.2.2 [7] rfl rfl rfl
     (by decide),
   rfl⟩

/-- C1: a `create_and_poll` failure classified Fatal (message containing
"must be verified" or "403") makes `try_sdk_generate` print the
remediation text and return `None`; `main` only sees the `None` and
therefore invokes the responses strategy (and the legacy strategy after
it if that also fails), so the chain is NOT aborted, contrary to the
claim. -/
theorem fatal_sdk_failure_reaches_next_strategies (w : MainWorld)
    (prompt : String) (d : Int) (res : String) (model : Option String) (e : Str)
    (h1 : w.sdk.openai_available = true) (h2 : w.sdk.has_videos = true)
    (h3 : w.sdk.create_and_poll (bucket_seconds d)
        (parse_resolution_to_size res) = .error e)
    (h4 : sdk_is_fatal_err e = true) :
    try_sdk_generate w.sdk d res =
      ⟨none, true, false⟩ ∧
    (main_run w prompt d res model).responses_attempted = true := by
  have hsdk : try_sdk_generate w.sdk d res = ⟨none, true, false⟩ := by
    simp only [try_sdk_generate, h1, h2, h3, h4]
    simp
  refine ⟨hsdk, ?_⟩
  rcases h5 : responses_http_generate w.resp prompt d res model with _ | b2
  · rcases h6 : (http_fallback_generate w.fb prompt d res model).result
      with e6 | ob
    · simp [main_run, hsdk, h5, h6]
    · rcases ob with _ | b3 <;> simp [main_run, hsdk, h5, h6]
  · simp [main_run, hsdk, h5]


/-- C1 witness: with the verification error on the SDK strategy, the
responses strategy is still invoked. -/
theorem fatal_sdk_failure_reaches_next_strategies_witness :
    try_sdk_generate sdkVerifyErrorWorld 8 "1280x720" =
      ⟨none, true, false⟩ ∧
    (main_run ⟨sdkVerifyErrorWorld, respEmptyWorld, fbVideoUrlOkWorld⟩
        "p" 8 "1280x720" none).responses_attempted = true :=
  fatal_sdk_failure_reaches_next_strategies
    ⟨sdkVerifyErrorWorld, respEmptyWorld, fbVideoUrlOkWorld⟩
    "p" 8 "1280x720" none "Your organization must be verified".data
    rfl rfl rfl (by decide)

/-- The duration bucket is always one of the three allowed strings. -/
lemma bucket_seconds_mem (d : Int) : bucket_seconds d ∈ ["4", "8", "12"] := by
  unfold bucket_seconds
  rw [bucket_target_eq d]
  split_ifs <;> decide

/-- The size mapping only ever produces the two 720p sizes. -/
lemma parse_resolution_two (s : String) :
    parse_resolution_to_size s = "1280x720" ∨
    parse_resolution_to_size s = "720x1280" := by
  unfold parse_resolution_to_size
  cases hp : parseResolutionWH s with
  | none => simp
  | some wh =>
    obtain ⟨w, h⟩ := wh
    dsimp only
    split_ifs <;> simp

/-- C2 counterexample: at duration 7 and resolution "640x360" the
responses-style strategy's request body carries the raw duration 7
(not in the allowed set; the bucketed value would have been "8") and the
raw width/height 640/360 instead of an allowed size string. -/
theorem responses_strategy_raw_params_cex :
    responses_video_spec 7 "640x360" = ⟨some 640, some 360, some 7, "mp4"⟩ ∧
    (7 : Int) ∉ allowed_seconds ∧
    bucket_seconds 7 = "8" := by decide

/-- C2 (amended): the SDK strategy passes exactly `bucket_seconds` and
`parse_resolution_to_size` values, and the legacy multipart strategy's
form fields likewise carry only normalized members of the allowed sets;
the responses-style strategy, by contrast, sends raw parsed values
(see the counterexample). -/
theorem sdk_and_multipart_params_normalized (prompt : String) (d : Int)
    (res : String) (model : Option String) :
    bucket_seconds d ∈ ["4", "8", "12"] ∧
    parse_resolution_to_size res ∈
      ["1280x720", "720x1280", "1792x1024", "1024x1792"] ∧
    (multipart_payload prompt d res model).size
        = some (parse_resolution_to_size res) ∧
    (∀ s, (multipart_payload prompt d res model).seconds = some s →
        s ∈ ["4", "8", "12"]) := by
  refine ⟨bucket_seconds_mem d, ?_, ?_, ?_⟩
  · rcases parse_resolution_two res with h | h <;> simp [h]
  · unfold multipart_payload
    rcases parse_resolution_two res with h | h <;> simp [h]
  · intro s hs
    unfold multipart_payload at hs
    simp only at hs
    split_ifs at hs with hd
    obtain rfl : bucket_seconds d = s := by simpa using hs
    exact bucket_seconds_mem d

/-- C2 witness: the legacy payload at duration 7 carries the bucketed
"8", a member of the allowed set. -/
theorem sdk_and_multipart_params_normalized_witness :
    (multipart_payload "p" 7 "640x360" none).seconds = some "8" ∧
    "8" ∈ ["4", "8", "12"] :=
  ⟨by decide,
   (sdk_and_multipart_params_normalized "p" 7 "640x360" none).2.2.2 "8"
     (by decide)⟩


/-- C8: a non-2xx answer when fetching a direct media URL is caught in
the SDK and responses strategies (both return `None`, a retryable
failure), but in the legacy multipart strategy the
`rr.raise_for_status()` call sits outside every handler: the `HTTPError`
escapes `http_fallback_generate` and crashes `main`, contradicting the
claim for that strategy. -/
theorem fallback_non2xx_fetch_crashes :
    (http_fallback_generate fbVideoUrl404World "p" 8 "1280x720" none).result
        = .error "HTTPError".data ∧
    (main_run ⟨sdkUnavailableWorld, respEmptyWorld, fbVideoUrl404World⟩
        "p" 8 "1280x720" none).result = .crashed "HTTPError".data ∧
    try_sdk_generate sdkUrl404World 8 "1280x720" = ⟨none, false, true⟩ ∧
    responses_http_generate respUrl404World "p" 8 "1280x720" none = none :=
  ⟨rfl, rfl, rfl, rfl⟩

/-- C9: with an existing reference image attached, a failing provider
call is retried exactly once without the image on the same strategy: if
the image-less call succeeds and extraction yields bytes, the strategy
itself succeeds (no fall-through); if it fails too, the strategy gives
up after exactly those two calls. -/
theorem image_retry_same_strategy (w : AppSdkWorld) (d : Int) (res : String)
    (p : String) (e : Str)
    (himg : p ≠ "") (h0 : w.openai_available = true) (h1 : w.has_videos = true)
    (h2 : w.image_exists = true)
    (hfail : w.create_and_poll true (bucket_seconds d)
        (parse_resolution_to_size res) = .error e) :
    (∀ v b, w.create_and_poll false (bucket_seconds d)
          (parse_resolution_to_size res) = .ok v →
        appExtract w v = .ok (some b) →
        generate_video_sdk w d res (some p) = ⟨some b, [true, false]⟩) ∧
    (∀ e2, w.create_and_poll false (bucket_seconds d)
          (parse_resolution_to_size res) = .error e2 →
        generate_video_sdk w d res (some p) = ⟨none, [true, false]⟩) := by
  constructor
  · intro v b hok hex
    simp only [generate_video_sdk, h0, h1, h2, hfail, hok, hex, himg]
    simp [himg, hex]
  · intro e2 herr
    simp only [generate_video_sdk, h0, h1, h2, hfail, herr]
    simp [himg]


/-- C9 witness: the image-rejecting world succeeds via the image-less
second call of the same strategy. -/
theorem image_retry_same_strategy_witness :
    generate_video_sdk imgRetryWorld 8 "1280x720" (some "input.jpg")
      = ⟨some [9], [true, false]⟩ :=
  (image_retry_same_strategy imgRetryWorld 8 "1280x720" "input.jpg"
      "image rejected".data (by decide) rfl rfl rfl rfl).1
    ⟨none, some "u".data, none⟩ [9] rfl rfl


end Sora
